import Mathlib

/-!
Shallow embedding of the subtitle-extraction pipeline of
`src/app/transcript_extractor.py` (class `YouTubeTranscriptExtractor`).
Python strings are modelled as lists of characters (`Str`), Python floats
as exact rationals (`ℚ`), and fallible Python library operations
(`int(...)`, `float(...)`) as `Option`-valued functions, with the
`try/except` blocks of the source mirrored by matching on those options.
-/

abbrev Str := List Char

/-- The characters removed by the default Python `str.strip()`. -/
def isPySpace (c : Char) : Bool :=
  c = ' ' || c = '\t' || c = '\n' || c = '\r' || c = '\x0b' || c = '\x0c'

/-- Python `s.strip()`: remove leading and trailing whitespace. -/
def pyStrip (s : Str) : Str :=
  ((s.dropWhile isPySpace).reverse.dropWhile isPySpace).reverse

/-- Prefix test on character lists (Python `startswith`, and the anchored
step of substring search).  Defined with a nested match so that it reduces
as soon as the pattern is exhausted, even on an abstract remainder. -/
def isPre : Str → Str → Bool
  | [], _ => true
  | a :: as, t =>
    match t with
    | [] => false
    | b :: bs => (a == b) && isPre as bs

/-- First occurrence of a (non-empty) separator in a string: returns the part
before it and the part after it, or `none` if the separator does not occur. -/
def splitFirst (sep : Str) : Str → Option (Str × Str)
  | [] => none
  | c :: rest =>
    if isPre sep (c :: rest) ∧ sep ≠ [] then
      some ([], List.drop (sep.length - 1) rest)
    else
      (splitFirst sep rest).map (fun p => (c :: p.1, p.2))

/-- Last occurrence of a (non-empty) separator in a string: the part before it
and the part after it.  This is Python `s.rsplit(sep, 1)` when it does split. -/
def splitLast (sep : Str) : Str → Option (Str × Str)
  | [] => none
  | c :: rest =>
    match splitLast sep rest with
    | some p => some (c :: p.1, p.2)
    | none =>
      if isPre sep (c :: rest) ∧ sep ≠ [] then
        some ([], List.drop (sep.length - 1) rest)
      else
        none

/-- Python `sub in s` for a non-empty `sub`. -/
def containsSub (sep s : Str) : Bool :=
  (splitFirst sep s).isSome

/-- Fuel-driven core of Python `s.split(sep)` for a non-empty separator.
The fuel only needs to dominate the length of the string; it keeps the
recursion structural so that the kernel can evaluate it. -/
def pySplitSepF (sep : Str) : Nat → Str → List Str
  | _, [] => [[]]
  | 0, s => [s]
  | fuel + 1, c :: rest =>
    if isPre sep (c :: rest) ∧ sep ≠ [] then
      [] :: pySplitSepF sep fuel (List.drop (sep.length - 1) rest)
    else
      match pySplitSepF sep fuel rest with
      | [] => [[c]]
      | h :: t => (c :: h) :: t

/-- Python `s.split(sep)` for a non-empty separator. -/
def pySplitSep (sep s : Str) : List Str :=
  pySplitSepF sep s.length s

/-- Numeric value of a decimal digit string. -/
def digitsVal (ds : Str) : Nat :=
  ds.foldl (fun a c => a * 10 + (c.toNat - '0'.toNat)) 0

/-- Python `int(s)` restricted to optionally signed decimal digit strings;
inputs outside that grammar (the grammar produced by subtitle timestamps)
are treated as failures, as Python raises `ValueError` on them. -/
def pyInt (s : Str) : Option Int :=
  let t := pyStrip s
  let ds := if t.head? = some '-' || t.head? = some '+' then t.tail else t
  let sg : Int := if t.head? = some '-' then -1 else 1
  if ds ≠ [] ∧ ds.all Char.isDigit = true then
    some (sg * (digitsVal ds : Int))
  else
    none

/-- Python `float("0." + frac)` restricted to decimal digit strings `frac`
(possibly empty, as in `float("0.")`); other fractional parts are treated
as failures. -/
def pyFloatFrac (frac : Str) : Option ℚ :=
  if frac.all Char.isDigit = true then
    some ((digitsVal frac : ℚ) / 10 ^ frac.length)
  else
    none

/-- Embedding of `_parse_timestamp` (VTT timestamps `HH:MM:SS.mmm`).
The string is stripped; if it contains a period, the part after the last
period is parsed as the float literal `0.<frac>`; the time-of-day part is
split on colons and accepted with three fields (`H:M:S`) or two fields
(`M:S`); every failure path returns `0.0`. -/
def parse_timestamp (s : Str) : ℚ :=
  let t := pyStrip s
  let hasDot := containsSub ['.'] t
  let p := if hasDot then (splitLast ['.'] t).getD (t, []) else (t, [])
  let msq : Option ℚ := if hasDot then pyFloatFrac p.2 else some 0
  match msq with
  | none => 0
  | some ms =>
    match pySplitSep [':'] p.1 with
    | [a, b, c] =>
      match pyInt a, pyInt b, pyInt c with
      | some hh, some mm, some ss => (hh : ℚ) * 3600 + (mm : ℚ) * 60 + (ss : ℚ) + ms
      | _, _, _ => 0
    | [b, c] =>
      match pyInt b, pyInt c with
      | some mm, some ss => (mm : ℚ) * 60 + (ss : ℚ) + ms
      | _, _ => 0
    | _ => 0

/-- Embedding of `_parse_srt_timestamp` (SRT timestamps `HH:MM:SS,mmm`).
Identical to the VTT parser except that the fractional delimiter is a comma
and only the three-field `H:M:S` form is accepted. -/
def parse_srt_timestamp (s : Str) : ℚ :=
  let t := pyStrip s
  let hasComma := containsSub [','] t
  let p := if hasComma then (splitLast [','] t).getD (t, []) else (t, [])
  let msq : Option ℚ := if hasComma then pyFloatFrac p.2 else some 0
  match msq with
  | none => 0
  | some ms =>
    match pySplitSep [':'] p.1 with
    | [a, b, c] =>
      match pyInt a, pyInt b, pyInt c with
      | some hh, some mm, some ss => (hh : ℚ) * 3600 + (mm : ℚ) * 60 + (ss : ℚ) + ms
      | _, _, _ => 0
    | _ => 0

/-- Failure predicate of `_parse_timestamp`, read off the failure paths of
the source: the fractional part fails to parse as a float, a time-of-day
component fails to parse as an integer, or the number of colon-separated
fields is neither two nor three. -/
def vttParseFails (s : Str) : Bool :=
  let t := pyStrip s
  let hasDot := containsSub ['.'] t
  let p := if hasDot then (splitLast ['.'] t).getD (t, []) else (t, [])
  let msq : Option ℚ := if hasDot then pyFloatFrac p.2 else some 0
  match msq with
  | none => true
  | some _ =>
    match pySplitSep [':'] p.1 with
    | [a, b, c] => (pyInt a).isNone || (pyInt b).isNone || (pyInt c).isNone
    | [b, c] => (pyInt b).isNone || (pyInt c).isNone
    | _ => true

/-- Failure predicate of `_parse_srt_timestamp`: as for the VTT parser but
with a comma delimiter and only the three-field form accepted. -/
def srtParseFails (s : Str) : Bool :=
  let t := pyStrip s
  let hasComma := containsSub [','] t
  let p := if hasComma then (splitLast [','] t).getD (t, []) else (t, [])
  let msq : Option ℚ := if hasComma then pyFloatFrac p.2 else some 0
  match msq with
  | none => true
  | some _ =>
    match pySplitSep [':'] p.1 with
    | [a, b, c] => (pyInt a).isNone || (pyInt b).isNone || (pyInt c).isNone
    | _ => true

/-- Component hypotheses used by the timestamp evaluation lemmas: the
characters of a time-of-day field contain no whitespace, no period, no
comma and no colon. -/
def cleanField (s : Str) : Prop :=
  ∀ ch ∈ s, isPySpace ch = false ∧ ch ≠ '.' ∧ ch ≠ ',' ∧ ch ≠ ':'

instance (s : Str) : Decidable (cleanField s) := by
  unfold cleanField
  infer_instance

/-- Malformedness of one SRT block, read off the guards of
`_parse_srt_content`: fewer than three lines, or a second line that does
not split into exactly two parts around the arrow. -/
def srtBlockMalformed (b : Str) : Prop :=
  match pySplitSep "\n".data (pyStrip b) with
  | _ :: tsLine :: _ :: _ => (pySplitSep " --> ".data tsLine).length ≠ 2
  | _ => True

instance (b : Str) : Decidable (srtBlockMalformed b) := by
  unfold srtBlockMalformed
  split <;> infer_instance

/-- One normalized transcript segment, as produced by the subtitle parsers:
display text, start offset in seconds, and duration in seconds. -/
structure Segment where
  text : Str
  start : ℚ
  duration : ℚ
deriving DecidableEq

/-- Core of `re.sub(r"<[^>]+>", "", text)`: delete every maximal group
consisting of a `<`, at least one character other than `>`, and a `>`.
The second argument buffers (in reverse) a pending `<...` group whose
closing `>` has not yet been seen. -/
def stripTagsAux : Str → Option Str → Str
  | [], none => []
  | [], some buf => buf.reverse
  | c :: cs, none =>
    if c = '<' then stripTagsAux cs (some ['<']) else c :: stripTagsAux cs none
  | c :: cs, some buf =>
    if c = '>' then
      if buf = ['<'] then '<' :: '>' :: stripTagsAux cs none
      else stripTagsAux cs none
    else
      stripTagsAux cs (some (c :: buf))

/-- Embedding of `re.sub(r"<[^>]+>", "", text)`. -/
def stripTags (s : Str) : Str :=
  stripTagsAux s none

/-- The inner `while` loop of `_parse_vtt_content` that gathers the text
lines of one cue: collect stripped, tag-stripped, non-empty lines until the
first blank line; also return the remaining lines starting at that blank
line (or `[]` at the end of input). -/
def collectCueText : List Str → List Str × List Str
  | [] => ([], [])
  | l :: rest =>
    if (pyStrip l).isEmpty then
      ([], l :: rest)
    else
      let t := stripTags (pyStrip l)
      let r := collectCueText rest
      (if t.isEmpty then r.1 else t :: r.1, r.2)

/-- Header-or-blank test of the `SCAN` state of `_parse_vtt_content`. -/
def vttSkipLine (line : Str) : Bool :=
  line.isEmpty || isPre "WEBVTT".data line || isPre "Kind:".data line
    || isPre "Language:".data line

/-- Fuel-driven core of the `while` loop of `_parse_vtt_content` over the
list of lines.  The fuel only needs to dominate the number of lines; it
keeps the recursion structural. -/
def parseVttLinesF : Nat → List Str → List Segment
  | _, [] => []
  | 0, _ => []
  | fuel + 1, l :: rest =>
    let line := pyStrip l
    if vttSkipLine line then
      parseVttLinesF fuel rest
    else if containsSub "-->".data line then
      match pySplitSep " --> ".data line with
      | [p1, p2] =>
        let st := parse_timestamp p1
        let en := parse_timestamp p2
        let tr := collectCueText rest
        (if tr.1.isEmpty then []
         else [⟨List.intercalate " ".data tr.1, st, en - st⟩])
          ++ parseVttLinesF fuel (tr.2.drop 1)
      | _ => parseVttLinesF fuel rest
    else
      parseVttLinesF fuel rest

/-- The `while` loop of `_parse_vtt_content` over the list of lines. -/
def parseVttLines (lines : List Str) : List Segment :=
  parseVttLinesF lines.length lines

/-- Embedding of `_parse_vtt_content`: split the content on newlines and run
the cue-scanning loop. -/
def parse_vtt_content (s : Str) : List Segment :=
  parseVttLines (pySplitSep "\n".data s)

/-- Embedding of the body of the `for` loop of `_parse_srt_content` for one
blank-line-delimited block: at least three lines, the second of which must
split into exactly two timestamp strings around the arrow; the remaining
lines are joined, tag-stripped, and emitted if non-empty. -/
def parseSrtBlock (block : Str) : List Segment :=
  match pySplitSep "\n".data (pyStrip block) with
  | _ :: tsLine :: t1 :: trest =>
    if containsSub "-->".data tsLine then
      match pySplitSep " --> ".data tsLine with
      | [p1, p2] =>
        let st := parse_srt_timestamp p1
        let en := parse_srt_timestamp p2
        let text0 := List.intercalate " ".data
          (((t1 :: trest).map pyStrip).filter (fun t => ¬ t.isEmpty))
        let text := stripTags text0
        if text.isEmpty then [] else [⟨text, st, en - st⟩]
      | _ => []
    else []
  | _ => []

/-- Embedding of `_parse_srt_content`: strip the content, split it on blank
lines, and process each block. -/
def parse_srt_content (s : Str) : List Segment :=
  (pySplitSep "\n\n".data (pyStrip s)).flatMap parseSrtBlock

/-- The character class `[0-9A-Za-z_-]` of the video-identifier patterns. -/
def isIdChar (c : Char) : Bool :=
  c.isDigit || ('A' ≤ c ∧ c ≤ 'Z' : Bool) || ('a' ≤ c ∧ c ≤ 'z' : Bool)
    || c = '_' || c = '-'

/-- Match `[0-9A-Za-z_-]{n}` at the start of a string, returning the
matched characters. -/
def takeClass : Nat → Str → Option Str
  | 0, _ => some []
  | _ + 1, [] => none
  | n + 1, c :: cs =>
    if isIdChar c then (takeClass n cs).map (fun l => c :: l) else none

/-- One attempted position of `re.search` for the first video-id pattern
`(?:v=|\/)([0-9A-Za-z_-]{11}).*`: the alternative `v=` is tried before
`/`, and the trailing `.*` always matches. -/
def tryPosP1 : Str → Option Str
  | 'v' :: '=' :: rest => takeClass 11 rest
  | '/' :: rest => takeClass 11 rest
  | _ => none

/-- `re.search` for the first video-id pattern: scan left to right and
return the capture group of the first position that matches. -/
def searchP1 : Str → Option Str
  | [] => none
  | c :: rest =>
    (tryPosP1 (c :: rest)).orElse (fun _ => searchP1 rest)

/-- `re.search` for a pattern consisting of a literal followed by the
11-character identifier capture group (the `embed/` and `watch?v=`
patterns). -/
def searchLit (lit : Str) : Str → Option Str
  | [] => none
  | c :: rest =>
    (if isPre lit (c :: rest) then
        takeClass 11 (List.drop lit.length (c :: rest))
      else none).orElse
      (fun _ => searchLit lit rest)

/-- Embedding of `YouTubeTranscriptExtractor.extract_video_id`: try the three
regular-expression patterns in order and return the first capture group. -/
def extract_video_id (url : Str) : Option Str :=
  match searchP1 url with
  | some g => some g
  | none =>
    match searchLit "embed/".data url with
    | some g => some g
    | none => searchLit "watch?v=".data url

/-- The two external subtitle sources that `extract_transcript` can call. -/
inductive SourceCall
  | api
  | ytdlp
deriving DecidableEq

/-- Oracle environment for `extract_transcript`: the availability flags of
the two external libraries and the value each source call would return
(`none` standing for the `None` produced by their internal exception
handlers). -/
structure ExtractEnv where
  transcriptApiAvailable : Bool
  ytDlpAvailable : Bool
  apiResult : Option (List Segment)
  ytdlpResult : Option (List Segment)

/-- Python truthiness of a transcript value: `None` and `[]` are falsy. -/
def truthyTranscript : Option (List Segment) → Bool
  | some (_ :: _) => true
  | _ => false

/-- Status message of a primary-source success, with the proxy suffix. -/
def successApiMsg (useProxy : Bool) : Str :=
  "Success using YouTube Transcript API".data
    ++ (if useProxy then " (with proxy)".data else [])

/-- Status message of a secondary-source success, with the proxy suffix. -/
def successYtdlpMsg (useProxy : Bool) : Str :=
  "Success using yt-dlp".data ++ (if useProxy then " (with proxy)".data else [])

/-- Embedding of `extract_transcript`: resolve the identifier, try the
primary source when available, fall back to the secondary source, and
report which sources were called.  The third component of the result is
the ordered list of source invocations. -/
def extract_transcript (env : ExtractEnv) (url : Str) (useProxy : Bool) :
    Option (List Segment) × Str × List SourceCall :=
  match extract_video_id url with
  | none => (none, "Invalid YouTube URL".data, [])
  | some vid =>
    if vid.isEmpty then
      (none, "Invalid YouTube URL".data, [])
    else
      let calls1 : List SourceCall :=
        if env.transcriptApiAvailable then [SourceCall.api] else []
      if env.transcriptApiAvailable ∧ truthyTranscript env.apiResult = true then
        (env.apiResult, successApiMsg useProxy, calls1)
      else
        let calls2 : List SourceCall :=
          calls1 ++ (if env.ytDlpAvailable then [SourceCall.ytdlp] else [])
        if env.ytDlpAvailable ∧ truthyTranscript env.ytdlpResult = true then
          (env.ytdlpResult, successYtdlpMsg useProxy, calls2)
        else
          (none, "Both transcript extraction methods failed".data, calls2)

/-! Helper lemmas about the string primitives. -/

lemma pyStrip_eq_self {s : Str} (h : ∀ ch ∈ s, isPySpace ch = false) :
    pyStrip s = s := by
  unfold pyStrip
  have h1 : s.dropWhile isPySpace = s := by
    cases s with
    | nil => rfl
    | cons a l =>
      rw [List.dropWhile_cons_of_neg]
      simp [h a (by simp)]
  rw [h1]
  have h2 : s.reverse.dropWhile isPySpace = s.reverse := by
    cases hs : s.reverse with
    | nil => rfl
    | cons a l =>
      rw [List.dropWhile_cons_of_neg]
      have ha : a ∈ s := by
        rw [← List.mem_reverse, hs]
        simp
      simp [h a ha]
  rw [h2, List.reverse_reverse]

lemma isPre_true_iff : ∀ {s t : Str}, isPre s t = true ↔ s <+: t := by
  intro s
  induction s with
  | nil =>
    intro t
    simp [isPre]
  | cons a as ih =>
    intro t
    cases t with
    | nil => simp [isPre]
    | cons b bs =>
      show ((a == b) && isPre as bs) = true ↔ a :: as <+: b :: bs
      rw [Bool.and_eq_true, beq_iff_eq, ih, List.cons_prefix_cons]

lemma isPrefixOf_singleton (c a : Char) (l : Str) :
    isPre [c] (a :: l) = (c == a) := by
  show ((c == a) && isPre [] l) = (c == a)
  rw [show isPre ([] : Str) l = true from rfl, Bool.and_true]

lemma splitFirst_singleton_of_not_mem {c : Char} {s : Str} (h : c ∉ s) :
    splitFirst [c] s = none := by
  induction s with
  | nil => rfl
  | cons a l ih =>
    unfold splitFirst
    rw [if_neg, ih (fun hm => h (by simp [hm]))]
    · rfl
    · rw [isPrefixOf_singleton]
      intro hand
      exact h (by simp [eq_of_beq hand.1])

lemma splitFirst_singleton_of_mem {c : Char} {s : Str} (h : c ∈ s) :
    (splitFirst [c] s).isSome = true := by
  induction s with
  | nil => simp at h
  | cons a l ih =>
    unfold splitFirst
    by_cases hc : c = a
    · rw [if_pos]
      · rfl
      · exact ⟨by rw [isPrefixOf_singleton, hc]; simp, by simp⟩
    · have hm : c ∈ l := by
        rcases List.mem_cons.mp h with h1 | h1
        · exact absurd h1 hc
        · exact h1
      rw [if_neg]
      · rcases Option.isSome_iff_exists.mp (ih hm) with ⟨p, hp⟩
        simp [hp]
      · intro hand
        have h1 := hand.1
        rw [isPrefixOf_singleton] at h1
        exact hc (by simpa using h1)

lemma containsSub_singleton_of_mem {c : Char} {s : Str} (h : c ∈ s) :
    containsSub [c] s = true :=
  splitFirst_singleton_of_mem h

lemma containsSub_singleton_of_not_mem {c : Char} {s : Str} (h : c ∉ s) :
    containsSub [c] s = false := by
  unfold containsSub
  rw [splitFirst_singleton_of_not_mem h]
  rfl

lemma splitLast_singleton_of_not_mem {c : Char} {s : Str} (h : c ∉ s) :
    splitLast [c] s = none := by
  induction s with
  | nil => rfl
  | cons a l ih =>
    unfold splitLast
    rw [ih (fun hm => h (by simp [hm])), if_neg]
    rw [isPrefixOf_singleton]
    intro hand
    exact h (by simp [eq_of_beq hand.1])

lemma splitLast_singleton_append {c : Char} {a b : Str}
    (ha : c ∉ a) (hb : c ∉ b) :
    splitLast [c] (a ++ c :: b) = some (a, b) := by
  induction a with
  | nil =>
    show splitLast [c] (c :: b) = some ([], b)
    unfold splitLast
    rw [splitLast_singleton_of_not_mem hb, if_pos]
    · simp
    · exact ⟨by rw [isPrefixOf_singleton]; simp, by simp⟩
  | cons x a2 ih =>
    have hx : c ∉ a2 := fun hm => ha (by simp [hm])
    show splitLast [c] (x :: (a2 ++ c :: b)) = some (x :: a2, b)
    unfold splitLast
    rw [ih hx]

lemma pySplitSepF_singleton_fuel {c : Char} {s : Str} :
    ∀ f g : Nat, s.length ≤ f → s.length ≤ g →
      pySplitSepF [c] f s = pySplitSepF [c] g s := by
  induction s with
  | nil => intro f g _ _; cases f <;> cases g <;> rfl
  | cons a l ih =>
    intro f g hf hg
    match f, g with
    | f2 + 1, g2 + 1 =>
      have hf2 : l.length ≤ f2 := by simpa using hf
      have hg2 : l.length ≤ g2 := by simpa using hg
      show pySplitSepF [c] (f2 + 1) (a :: l) = pySplitSepF [c] (g2 + 1) (a :: l)
      unfold pySplitSepF
      by_cases hp : isPre [c] (a :: l) ∧ ([c] : Str) ≠ []
      · rw [if_pos hp, if_pos hp]
        simp only [List.length_singleton, Nat.sub_self, List.drop_zero]
        rw [ih f2 g2 hf2 hg2]
      · rw [if_neg hp, if_neg hp, ih f2 g2 hf2 hg2]

lemma pySplitSep_singleton_of_not_mem {c : Char} {s : Str} (h : c ∉ s) :
    pySplitSep [c] s = [s] := by
  induction s with
  | nil => rfl
  | cons a l ih =>
    show pySplitSepF [c] (l.length + 1) (a :: l) = [a :: l]
    unfold pySplitSepF
    rw [if_neg]
    · have : pySplitSepF [c] l.length l = [l] := ih (fun hm => h (by simp [hm]))
      rw [this]
    · rw [isPrefixOf_singleton]
      intro hand
      exact h (by simp [eq_of_beq hand.1])

lemma pySplitSep_singleton_append {c : Char} {a r : Str} (ha : c ∉ a) :
    pySplitSep [c] (a ++ c :: r) = a :: pySplitSep [c] r := by
  induction a with
  | nil =>
    show pySplitSepF [c] (r.length + 1) (c :: r) = [] :: pySplitSep [c] r
    unfold pySplitSepF
    rw [if_pos]
    · simp only [List.length_singleton, Nat.sub_self, List.drop_zero]
      rfl
    · exact ⟨by rw [isPrefixOf_singleton]; simp, by simp⟩
  | cons x a2 ih =>
    have hx : c ∉ a2 := fun hm => ha (by simp [hm])
    have hlen : (a2 ++ c :: r).length ≤ a2.length + (r.length + 1) := by
      simp [List.length_append]
    show pySplitSepF [c] ((x :: (a2 ++ c :: r)).length - 1 + 1)
        (x :: (a2 ++ c :: r)) = (x :: a2) :: pySplitSep [c] r
    unfold pySplitSepF
    rw [if_neg]
    · have heq : pySplitSepF [c] ((x :: (a2 ++ c :: r)).length - 1) (a2 ++ c :: r)
          = pySplitSep [c] (a2 ++ c :: r) := by
        apply pySplitSepF_singleton_fuel
        · simp
        · exact Nat.le_refl _
      rw [heq, ih hx]
    · rw [isPrefixOf_singleton]
      intro hand
      exact ha (by simp [eq_of_beq hand.1])

lemma pySplitSep_three {a b c : Str} {sep : Char}
    (ha : sep ∉ a) (hb : sep ∉ b) (hc : sep ∉ c) :
    pySplitSep [sep] (a ++ sep :: (b ++ sep :: c)) = [a, b, c] := by
  rw [pySplitSep_singleton_append ha, pySplitSep_singleton_append hb,
    pySplitSep_singleton_of_not_mem hc]

lemma pySplitSep_two {b c : Str} {sep : Char} (hb : sep ∉ b) (hc : sep ∉ c) :
    pySplitSep [sep] (b ++ sep :: c) = [b, c] := by
  rw [pySplitSep_singleton_append hb, pySplitSep_singleton_of_not_mem hc]

/-! Facts about digit characters. -/

lemma digit_not_pySpace {c : Char} (h : c.isDigit = true) : isPySpace c = false := by
  by_contra hcon
  have h2 : isPySpace c = true := by
    cases he : isPySpace c
    · exact absurd he hcon
    · rfl
  simp only [isPySpace, Bool.or_eq_true, decide_eq_true_eq] at h2
  rcases h2 with ((((e | e) | e) | e) | e) | e <;> subst e <;> simp [Char.isDigit] at h

lemma digit_ne {c x : Char} (h : c.isDigit = true) (hx : x.isDigit = false) :
    c ≠ x := by
  intro e
  subst e
  rw [h] at hx
  simp at hx

lemma all_digit_not_mem {s : Str} (h : s.all Char.isDigit = true) {x : Char}
    (hx : x.isDigit = false) : x ∉ s := by
  intro hm
  have := List.all_eq_true.mp h x hm
  exact digit_ne this hx rfl

lemma pyInt_digits {ds : Str} (hne : ds ≠ []) (hd : ds.all Char.isDigit = true) :
    pyInt ds = some (digitsVal ds : Int) := by
  have hstrip : pyStrip ds = ds :=
    pyStrip_eq_self (fun ch hm => digit_not_pySpace (List.all_eq_true.mp hd ch hm))
  match ds, hne with
  | d :: ds2, _ =>
    have hdd : d.isDigit = true := List.all_eq_true.mp hd d (by simp)
    have hminus : d ≠ '-' := digit_ne hdd (by decide)
    have hplus : d ≠ '+' := digit_ne hdd (by decide)
    unfold pyInt
    rw [hstrip]
    simp [hminus, hplus, hd]

lemma pyFloatFrac_digits {f : Str} (hf : f.all Char.isDigit = true) :
    pyFloatFrac f = some ((digitsVal f : ℚ) / 10 ^ f.length) := by
  simp [pyFloatFrac, hf]

lemma cleanField_of_digits {s : Str} (h : s.all Char.isDigit = true) :
    cleanField s := by
  intro ch hm
  have hd := List.all_eq_true.mp h ch hm
  exact ⟨digit_not_pySpace hd, digit_ne hd (by decide), digit_ne hd (by decide),
    digit_ne hd (by decide)⟩

/-! Evaluation lemmas for the two timestamp parsers on well-formed shapes. -/

lemma parse_timestamp_hms_frac {a b c f : Str} {A B C : ℤ}
    (ha : cleanField a) (hb : cleanField b) (hc : cleanField c)
    (hf : f.all Char.isDigit = true)
    (hA : pyInt a = some A) (hB : pyInt b = some B) (hC : pyInt c = some C) :
    parse_timestamp (a ++ ':' :: (b ++ ':' :: (c ++ '.' :: f))) =
      (A : ℚ) * 3600 + (B : ℚ) * 60 + (C : ℚ) +
        (digitsVal f : ℚ) / 10 ^ f.length := by
  have hshape : a ++ ':' :: (b ++ ':' :: (c ++ '.' :: f)) =
      (a ++ ':' :: (b ++ ':' :: c)) ++ '.' :: f := by
    simp
  rw [hshape]
  have hdotA : '.' ∉ a ++ ':' :: (b ++ ':' :: c) := by
    intro hm
    simp only [List.mem_append, List.mem_cons] at hm
    rcases hm with h1 | h1 | h1 | h1 | h1
    · exact (ha _ h1).2.1 rfl
    · exact absurd h1.symm (by decide)
    · exact (hb _ h1).2.1 rfl
    · exact absurd h1.symm (by decide)
    · exact (hc _ h1).2.1 rfl
  have hdotf : '.' ∉ f := all_digit_not_mem hf (by decide)
  have hstrip : pyStrip ((a ++ ':' :: (b ++ ':' :: c)) ++ '.' :: f) =
      (a ++ ':' :: (b ++ ':' :: c)) ++ '.' :: f := by
    apply pyStrip_eq_self
    intro ch hm
    simp only [List.mem_append, List.mem_cons] at hm
    rcases hm with (h1 | h1 | h1 | h1 | h1) | h1 | h1
    · exact (ha _ h1).1
    · subst h1; decide
    · exact (hb _ h1).1
    · subst h1; decide
    · exact (hc _ h1).1
    · subst h1; decide
    · exact digit_not_pySpace (List.all_eq_true.mp hf _ h1)
  have hdotmem : '.' ∈ (a ++ ':' :: (b ++ ':' :: c)) ++ '.' :: f := by simp
  have hsplit3 : pySplitSep [':'] (a ++ ':' :: (b ++ ':' :: c)) = [a, b, c] := by
    apply pySplitSep_three
    · exact fun hm => (ha _ hm).2.2.2 rfl
    · exact fun hm => (hb _ hm).2.2.2 rfl
    · exact fun hm => (hc _ hm).2.2.2 rfl
  simp only [parse_timestamp]
  rw [hstrip, containsSub_singleton_of_mem hdotmem,
    splitLast_singleton_append hdotA hdotf]
  simp [hsplit3, hA, hB, hC, pyFloatFrac_digits hf]

lemma parse_timestamp_hms {a b c : Str} {A B C : ℤ}
    (ha : cleanField a) (hb : cleanField b) (hc : cleanField c)
    (hA : pyInt a = some A) (hB : pyInt b = some B) (hC : pyInt c = some C) :
    parse_timestamp (a ++ ':' :: (b ++ ':' :: c)) =
      (A : ℚ) * 3600 + (B : ℚ) * 60 + (C : ℚ) := by
  have hdotA : '.' ∉ a ++ ':' :: (b ++ ':' :: c) := by
    intro hm
    simp only [List.mem_append, List.mem_cons] at hm
    rcases hm with h1 | h1 | h1 | h1 | h1
    · exact (ha _ h1).2.1 rfl
    · exact absurd h1.symm (by decide)
    · exact (hb _ h1).2.1 rfl
    · exact absurd h1.symm (by decide)
    · exact (hc _ h1).2.1 rfl
  have hstrip : pyStrip (a ++ ':' :: (b ++ ':' :: c)) =
      a ++ ':' :: (b ++ ':' :: c) := by
    apply pyStrip_eq_self
    intro ch hm
    simp only [List.mem_append, List.mem_cons] at hm
    rcases hm with h1 | h1 | h1 | h1 | h1
    · exact (ha _ h1).1
    · subst h1; decide
    · exact (hb _ h1).1
    · subst h1; decide
    · exact (hc _ h1).1
  have hsplit3 : pySplitSep [':'] (a ++ ':' :: (b ++ ':' :: c)) = [a, b, c] := by
    apply pySplitSep_three
    · exact fun hm => (ha _ hm).2.2.2 rfl
    · exact fun hm => (hb _ hm).2.2.2 rfl
    · exact fun hm => (hc _ hm).2.2.2 rfl
  simp only [parse_timestamp]
  rw [hstrip, containsSub_singleton_of_not_mem hdotA]
  simp [hsplit3, hA, hB, hC]

lemma parse_timestamp_ms {b c : Str} {B C : ℤ}
    (hb : cleanField b) (hc : cleanField c)
    (hB : pyInt b = some B) (hC : pyInt c = some C) :
    parse_timestamp (b ++ ':' :: c) = (B : ℚ) * 60 + (C : ℚ) := by
  have hdotA : '.' ∉ b ++ ':' :: c := by
    intro hm
    simp only [List.mem_append, List.mem_cons] at hm
    rcases hm with h1 | h1 | h1
    · exact (hb _ h1).2.1 rfl
    · exact absurd h1.symm (by decide)
    · exact (hc _ h1).2.1 rfl
  have hstrip : pyStrip (b ++ ':' :: c) = b ++ ':' :: c := by
    apply pyStrip_eq_self
    intro ch hm
    simp only [List.mem_append, List.mem_cons] at hm
    rcases hm with h1 | h1 | h1
    · exact (hb _ h1).1
    · subst h1; decide
    · exact (hc _ h1).1
  have hsplit2 : pySplitSep [':'] (b ++ ':' :: c) = [b, c] := by
    apply pySplitSep_two
    · exact fun hm => (hb _ hm).2.2.2 rfl
    · exact fun hm => (hc _ hm).2.2.2 rfl
  simp only [parse_timestamp]
  rw [hstrip, containsSub_singleton_of_not_mem hdotA]
  simp [hsplit2, hB, hC]

lemma parse_srt_timestamp_hms {a b c : Str} {A B C : ℤ}
    (ha : cleanField a) (hb : cleanField b) (hc : cleanField c)
    (hA : pyInt a = some A) (hB : pyInt b = some B) (hC : pyInt c = some C) :
    parse_srt_timestamp (a ++ ':' :: (b ++ ':' :: c)) =
      (A : ℚ) * 3600 + (B : ℚ) * 60 + (C : ℚ) := by
  have hcomma : ',' ∉ a ++ ':' :: (b ++ ':' :: c) := by
    intro hm
    simp only [List.mem_append, List.mem_cons] at hm
    rcases hm with h1 | h1 | h1 | h1 | h1
    · exact (ha _ h1).2.2.1 rfl
    · exact absurd h1.symm (by decide)
    · exact (hb _ h1).2.2.1 rfl
    · exact absurd h1.symm (by decide)
    · exact (hc _ h1).2.2.1 rfl
  have hstrip : pyStrip (a ++ ':' :: (b ++ ':' :: c)) =
      a ++ ':' :: (b ++ ':' :: c) := by
    apply pyStrip_eq_self
    intro ch hm
    simp only [List.mem_append, List.mem_cons] at hm
    rcases hm with h1 | h1 | h1 | h1 | h1
    · exact (ha _ h1).1
    · subst h1; decide
    · exact (hb _ h1).1
    · subst h1; decide
    · exact (hc _ h1).1
  have hsplit3 : pySplitSep [':'] (a ++ ':' :: (b ++ ':' :: c)) = [a, b, c] := by
    apply pySplitSep_three
    · exact fun hm => (ha _ hm).2.2.2 rfl
    · exact fun hm => (hb _ hm).2.2.2 rfl
    · exact fun hm => (hc _ hm).2.2.2 rfl
  simp only [parse_srt_timestamp]
  rw [hstrip, containsSub_singleton_of_not_mem hcomma]
  simp [hsplit3, hA, hB, hC]

lemma parse_srt_timestamp_two_fields {b c : Str}
    (hb : cleanField b) (hc : cleanField c) :
    parse_srt_timestamp (b ++ ':' :: c) = 0 := by
  have hcomma : ',' ∉ b ++ ':' :: c := by
    intro hm
    simp only [List.mem_append, List.mem_cons] at hm
    rcases hm with h1 | h1 | h1
    · exact (hb _ h1).2.2.1 rfl
    · exact absurd h1.symm (by decide)
    · exact (hc _ h1).2.2.1 rfl
  have hstrip : pyStrip (b ++ ':' :: c) = b ++ ':' :: c := by
    apply pyStrip_eq_self
    intro ch hm
    simp only [List.mem_append, List.mem_cons] at hm
    rcases hm with h1 | h1 | h1
    · exact (hb _ h1).1
    · subst h1; decide
    · exact (hc _ h1).1
  have hsplit2 : pySplitSep [':'] (b ++ ':' :: c) = [b, c] := by
    apply pySplitSep_two
    · exact fun hm => (hb _ hm).2.2.2 rfl
    · exact fun hm => (hc _ hm).2.2.2 rfl
  simp only [parse_srt_timestamp]
  rw [hstrip, containsSub_singleton_of_not_mem hcomma]
  simp [hsplit2]

lemma parse_timestamp_digit_fields {a b c f : Str}
    (hane : a ≠ []) (had : a.all Char.isDigit = true)
    (hbne : b ≠ []) (hbd : b.all Char.isDigit = true)
    (hcne : c ≠ []) (hcd : c.all Char.isDigit = true)
    (hf : f.all Char.isDigit = true) :
    parse_timestamp (a ++ ':' :: (b ++ ':' :: (c ++ '.' :: f))) =
      (digitsVal a : ℚ) * 3600 + (digitsVal b : ℚ) * 60 + (digitsVal c : ℚ) +
        (digitsVal f : ℚ) / 10 ^ f.length := by
  have h := parse_timestamp_hms_frac (cleanField_of_digits had)
    (cleanField_of_digits hbd) (cleanField_of_digits hcd) hf
    (pyInt_digits hane had) (pyInt_digits hbne hbd) (pyInt_digits hcne hcd)
  rw [h]
  push_cast
  ring

lemma infix_of_splitFirst_isSome {sep s : Str}
    (h : (splitFirst sep s).isSome = true) : sep <:+: s := by
  induction s with
  | nil => simp [splitFirst] at h
  | cons c rest ih =>
    unfold splitFirst at h
    by_cases hp : isPre sep (c :: rest) ∧ sep ≠ []
    · have := isPre_true_iff.mp hp.1
      exact this.isInfix
    · rw [if_neg hp] at h
      have h2 : (splitFirst sep rest).isSome = true := by
        rcases hm : splitFirst sep rest with _ | p
        · rw [hm] at h; simp at h
        · rfl
      exact List.infix_cons (ih h2)

lemma splitFirst_isSome_of_infix {sep s : Str} (hsep : sep ≠ [])
    (h : sep <:+: s) : (splitFirst sep s).isSome = true := by
  induction s with
  | nil =>
    rcases h with ⟨t, u, ht⟩
    rcases List.append_eq_nil.mp ht with ⟨h1, _⟩
    rcases List.append_eq_nil.mp h1 with ⟨_, h3⟩
    exact absurd h3 hsep
  | cons c rest ih =>
    unfold splitFirst
    by_cases hp : isPre sep (c :: rest) ∧ sep ≠ []
    · rw [if_pos hp]; rfl
    · rw [if_neg hp]
      rcases h with ⟨t, u, ht⟩
      cases t with
      | nil =>
        exfalso
        apply hp
        refine ⟨isPre_true_iff.mpr ⟨u, ?_⟩, hsep⟩
        simpa using ht
      | cons x t2 =>
        have ht2 : t2 ++ sep ++ u = rest := by
          simp only [List.cons_append] at ht
          exact (List.cons.injEq x _ c _).mp ht |>.2
        have hs := ih ⟨t2, u, ht2⟩
        rcases hm : splitFirst sep rest with _ | p
        · rw [hm] at hs; simp at hs
        · simp [hm]

lemma splitFirst_none_pySplitSep {sep s : Str}
    (h : splitFirst sep s = none) : pySplitSep sep s = [s] := by
  induction s with
  | nil => rfl
  | cons c rest ih =>
    unfold splitFirst at h
    by_cases hp : isPre sep (c :: rest) ∧ sep ≠ []
    · rw [if_pos hp] at h; simp at h
    · rw [if_neg hp] at h
      have h2 : splitFirst sep rest = none := by
        rcases hm : splitFirst sep rest with _ | p
        · rfl
        · rw [hm] at h; simp at h
      show pySplitSepF sep (rest.length + 1) (c :: rest) = [c :: rest]
      unfold pySplitSepF
      rw [if_neg hp]
      have h3 : pySplitSepF sep rest.length rest = [rest] := ih h2
      rw [h3]

lemma arrow_no_split {l : Str} (h : containsSub "-->".data l = false) :
    pySplitSep " --> ".data l = [l] := by
  apply splitFirst_none_pySplitSep
  rcases hm : splitFirst " --> ".data l with _ | p
  · rfl
  · exfalso
    have hinf : (" --> ".data : Str) <:+: l :=
      infix_of_splitFirst_isSome (by simp [hm])
    have harr : ("-->".data : Str) <:+: (" --> ".data : Str) := ⟨[' '], [' '], rfl⟩
    have h3 : ("-->".data : Str) <:+: l := harr.trans hinf
    have h2 := splitFirst_isSome_of_infix (by decide) h3
    rw [containsSub] at h
    rw [h2] at h
    simp at h

lemma parseVttLines_cons_skip {tl : Str} {rest : List Str}
    (h : (pySplitSep " --> ".data (pyStrip tl)).length ≠ 2) :
    parseVttLines (tl :: rest) = parseVttLines rest := by
  show parseVttLinesF (rest.length + 1) (tl :: rest) = parseVttLines rest
  simp only [parseVttLinesF]
  by_cases h1 : vttSkipLine (pyStrip tl) = true
  · rw [if_pos h1]; rfl
  · rw [if_neg h1]
    by_cases h2 : containsSub "-->".data (pyStrip tl) = true
    · rw [if_pos h2]
      rcases hsp : pySplitSep " --> ".data (pyStrip tl) with _ | ⟨p1, _ | ⟨p2, _ | ⟨p3, ps⟩⟩⟩
      · rfl
      · rfl
      · rw [hsp] at h; simp at h
      · rfl
    · rw [if_neg h2]; rfl

/-! Helper lemmas about the video-identifier searches. -/

lemma takeClass_spec : ∀ (n : Nat) (cs g : Str), takeClass n cs = some g →
    g.length = n ∧ g.all isIdChar = true := by
  intro n
  induction n with
  | zero =>
    intro cs g h
    have h2 : ([] : Str) = g := Option.some.inj h
    subst h2
    exact ⟨rfl, rfl⟩
  | succ n ih =>
    intro cs g h
    cases cs with
    | nil => simp [takeClass] at h
    | cons c cs2 =>
      simp only [takeClass] at h
      by_cases hc : isIdChar c = true
      · rw [if_pos hc] at h
        rcases hm : takeClass n cs2 with _ | g2
        · rw [hm] at h; simp at h
        · rw [hm] at h
          simp at h
          subst h
          rcases ih cs2 g2 hm with ⟨hl, ha⟩
          constructor
          · simp [hl]
          · simp [List.all_cons, hc, ha]
      · rw [if_neg hc] at h
        simp at h

lemma tryPosP1_spec {l g : Str} (h : tryPosP1 l = some g) :
    g.length = 11 ∧ g.all isIdChar = true := by
  unfold tryPosP1 at h
  split at h
  · exact takeClass_spec 11 _ g h
  · exact takeClass_spec 11 _ g h
  · simp at h

lemma searchP1_spec : ∀ {s g : Str}, searchP1 s = some g →
    g.length = 11 ∧ g.all isIdChar = true := by
  intro s
  induction s with
  | nil => intro g h; simp [searchP1] at h
  | cons c rest ih =>
    intro g h
    unfold searchP1 at h
    rcases ht : tryPosP1 (c :: rest) with _ | g2
    · rw [ht] at h
      exact ih h
    · rw [ht] at h
      cases h
      exact tryPosP1_spec ht

lemma searchLit_spec {lit : Str} : ∀ {s g : Str}, searchLit lit s = some g →
    g.length = 11 ∧ g.all isIdChar = true := by
  intro s
  induction s with
  | nil => intro g h; simp [searchLit] at h
  | cons c rest ih =>
    intro g h
    unfold searchLit at h
    by_cases hp : isPre lit (c :: rest) = true
    · rw [if_pos hp] at h
      rcases ht : takeClass 11 (List.drop lit.length (c :: rest)) with _ | g2
      · rw [ht] at h
        exact ih h
      · rw [ht] at h
        cases h
        exact takeClass_spec 11 _ _ ht
    · rw [if_neg hp] at h
      exact ih h

lemma extract_watch_some {xs g : Str} (h : takeClass 11 xs = some g) :
    extract_video_id ("watch?v=".data ++ xs) = some g := by
  have hs : searchP1 ("watch?v=".data ++ xs) = some g := by
    have step : searchP1 ("watch?v=".data ++ xs)
        = (takeClass 11 xs).orElse (fun _ => searchP1 ('=' :: xs)) := rfl
    rw [step, h]
    rfl
  unfold extract_video_id
  rw [hs]

lemma extract_youtube_some {xs g : Str} (h : takeClass 11 xs = some g) :
    extract_video_id ("youtu.be/".data ++ xs) = some g := by
  have hs : searchP1 ("youtu.be/".data ++ xs) = some g := by
    have step : searchP1 ("youtu.be/".data ++ xs)
        = (takeClass 11 xs).orElse (fun _ => searchP1 xs) := rfl
    rw [step, h]
    rfl
  unfold extract_video_id
  rw [hs]

lemma extract_shorts_some {xs g : Str} (h : takeClass 11 xs = some g) :
    extract_video_id ("/shorts/".data ++ xs) = some g := by
  have hs : searchP1 ("/shorts/".data ++ xs) = some g := by
    have step : searchP1 ("/shorts/".data ++ xs)
        = (takeClass 11 xs).orElse (fun _ => searchP1 xs) := rfl
    rw [step, h]
    rfl
  unfold extract_video_id
  rw [hs]

lemma extract_embed_some {xs g : Str} (h : takeClass 11 xs = some g) :
    extract_video_id ("/embed/".data ++ xs) = some g := by
  have hs : searchP1 ("/embed/".data ++ xs) = some g := by
    have step : searchP1 ("/embed/".data ++ xs)
        = (takeClass 11 xs).orElse (fun _ => searchP1 xs) := rfl
    rw [step, h]
    rfl
  unfold extract_video_id
  rw [hs]

lemma extract_watch_none {xs : Str} (h : takeClass 11 xs = none) :
    extract_video_id ("watch?v=".data ++ xs) = extract_video_id xs := by
  have hs : searchP1 ("watch?v=".data ++ xs) = searchP1 xs := by
    have step : searchP1 ("watch?v=".data ++ xs)
        = (takeClass 11 xs).orElse (fun _ => searchP1 ('=' :: xs)) := rfl
    rw [step, h]
    rfl
  have hemb : searchLit "embed/".data ("watch?v=".data ++ xs)
      = searchLit "embed/".data xs := rfl
  have hw : searchLit "watch?v=".data ("watch?v=".data ++ xs)
      = searchLit "watch?v=".data xs := by
    have step : searchLit "watch?v=".data ("watch?v=".data ++ xs)
        = (takeClass 11 xs).orElse
            (fun _ => searchLit "watch?v=".data ("atch?v=".data ++ xs)) := rfl
    rw [step, h]
    rfl
  unfold extract_video_id
  rw [hs, hemb, hw]

lemma extract_youtube_none {xs : Str} (h : takeClass 11 xs = none) :
    extract_video_id ("youtu.be/".data ++ xs) = extract_video_id xs := by
  have hs : searchP1 ("youtu.be/".data ++ xs) = searchP1 xs := by
    have step : searchP1 ("youtu.be/".data ++ xs)
        = (takeClass 11 xs).orElse (fun _ => searchP1 xs) := rfl
    rw [step, h]
    rfl
  have hemb : searchLit "embed/".data ("youtu.be/".data ++ xs)
      = searchLit "embed/".data xs := rfl
  have hw : searchLit "watch?v=".data ("youtu.be/".data ++ xs)
      = searchLit "watch?v=".data xs := rfl
  unfold extract_video_id
  rw [hs, hemb, hw]

lemma extract_shorts_none {xs : Str} (h : takeClass 11 xs = none) :
    extract_video_id ("/shorts/".data ++ xs) = extract_video_id xs := by
  have hs : searchP1 ("/shorts/".data ++ xs) = searchP1 xs := by
    have step : searchP1 ("/shorts/".data ++ xs)
        = (takeClass 11 xs).orElse (fun _ => searchP1 xs) := rfl
    rw [step, h]
    rfl
  have hemb : searchLit "embed/".data ("/shorts/".data ++ xs)
      = searchLit "embed/".data xs := rfl
  have hw : searchLit "watch?v=".data ("/shorts/".data ++ xs)
      = searchLit "watch?v=".data xs := rfl
  unfold extract_video_id
  rw [hs, hemb, hw]

lemma extract_embed_none {xs : Str} (h : takeClass 11 xs = none) :
    extract_video_id ("/embed/".data ++ xs) = extract_video_id xs := by
  have hs : searchP1 ("/embed/".data ++ xs) = searchP1 xs := by
    have step : searchP1 ("/embed/".data ++ xs)
        = (takeClass 11 xs).orElse (fun _ => searchP1 xs) := rfl
    rw [step, h]
    rfl
  have hemb : searchLit "embed/".data ("/embed/".data ++ xs)
      = searchLit "embed/".data xs := by
    have step : searchLit "embed/".data ("/embed/".data ++ xs)
        = (takeClass 11 xs).orElse
            (fun _ => searchLit "embed/".data ("mbed/".data ++ xs)) := rfl
    rw [step, h]
    rfl
  have hw : searchLit "watch?v=".data ("/embed/".data ++ xs)
      = searchLit "watch?v=".data xs := rfl
  unfold extract_video_id
  rw [hs, hemb, hw]

/-! The claim theorems. -/

/-- C1: on the two-cue WebVTT sample (header line `WEBVTT`, cue
`00:00:00.000 --> 00:00:01.000` with text `hello world`, blank line, cue
`00:00:01.000 --> 00:00:02.000` with text `this is a test`),
`_parse_vtt_content` returns exactly two segments: `hello world` with start
0.0 and duration 1.0, then `this is a test` with start 1.0 and duration
1.0, in that order. -/
theorem C1_vtt_sample_two_segments :
    parse_vtt_content
        ("WEBVTT\n\n00:00:00.000 --> 00:00:01.000\nhello world\n\n00:00:01.000 --> 00:00:02.000\nthis is a test".data) =
      [⟨"hello world".data, 0, 1⟩, ⟨"this is a test".data, 1, 1⟩] := by
  have h0 : parse_timestamp "00:00:00.000".data = 0 := by
    rw [show ("00:00:00.000".data : Str) =
        "00".data ++ ':' :: ("00".data ++ ':' :: ("00".data ++ '.' :: "000".data)) from rfl,
      parse_timestamp_digit_fields (by decide) (by decide) (by decide)
        (by decide) (by decide) (by decide) (by decide)]
    norm_num [show digitsVal "00".data = 0 from by decide,
      show digitsVal "000".data = 0 from by decide]
  have h1 : parse_timestamp "00:00:01.000".data = 1 := by
    rw [show ("00:00:01.000".data : Str) =
        "00".data ++ ':' :: ("00".data ++ ':' :: ("01".data ++ '.' :: "000".data)) from rfl,
      parse_timestamp_digit_fields (by decide) (by decide) (by decide)
        (by decide) (by decide) (by decide) (by decide)]
    norm_num [show digitsVal "00".data = 0 from by decide,
      show digitsVal "01".data = 1 from by decide,
      show digitsVal "000".data = 0 from by decide]
  have h2 : parse_timestamp "00:00:02.000".data = 2 := by
    rw [show ("00:00:02.000".data : Str) =
        "00".data ++ ':' :: ("00".data ++ ':' :: ("02".data ++ '.' :: "000".data)) from rfl,
      parse_timestamp_digit_fields (by decide) (by decide) (by decide)
        (by decide) (by decide) (by decide) (by decide)]
    norm_num [show digitsVal "00".data = 0 from by decide,
      show digitsVal "02".data = 2 from by decide,
      show digitsVal "000".data = 0 from by decide]
  have hmain : parse_vtt_content
      ("WEBVTT\n\n00:00:00.000 --> 00:00:01.000\nhello world\n\n00:00:01.000 --> 00:00:02.000\nthis is a test".data) =
      [⟨"hello world".data, parse_timestamp "00:00:00.000".data,
        parse_timestamp "00:00:01.000".data - parse_timestamp "00:00:00.000".data⟩,
       ⟨"this is a test".data, parse_timestamp "00:00:01.000".data,
        parse_timestamp "00:00:02.000".data - parse_timestamp "00:00:01.000".data⟩] := rfl
  rw [hmain, h0, h1, h2]
  norm_num

/-- C2: `_parse_timestamp` returns 1.5 for `00:00:01.500`, 90.25 for
`00:01:30.250`, and 3600.0 for `01:00:00.000`; in general, on a well-formed
`H:M:S.frac` input made of digit fields it returns `H*3600 + M*60 + S` plus
the value of the literal decimal fraction `0.frac`, so the one-digit
fractional part `5` contributes 0.5 seconds rather than 0.005 seconds. -/
theorem C2_timestamp_values :
    (parse_timestamp "00:00:01.500".data = 3 / 2 ∧
     parse_timestamp "00:01:30.250".data = 361 / 4 ∧
     parse_timestamp "01:00:00.000".data = 3600 ∧
     parse_timestamp "00:00:00.5".data = 1 / 2) ∧
    ∀ a b c f : Str, a ≠ [] → a.all Char.isDigit = true →
      b ≠ [] → b.all Char.isDigit = true →
      c ≠ [] → c.all Char.isDigit = true →
      f.all Char.isDigit = true →
      parse_timestamp (a ++ ':' :: (b ++ ':' :: (c ++ '.' :: f))) =
        (digitsVal a : ℚ) * 3600 + (digitsVal b : ℚ) * 60 + (digitsVal c : ℚ) +
          (digitsVal f : ℚ) / 10 ^ f.length := by
  constructor
  · refine ⟨?_, ?_, ?_, ?_⟩
    · rw [show ("00:00:01.500".data : Str) =
          "00".data ++ ':' :: ("00".data ++ ':' :: ("01".data ++ '.' :: "500".data)) from rfl,
        parse_timestamp_digit_fields (by decide) (by decide) (by decide)
          (by decide) (by decide) (by decide) (by decide)]
      norm_num [show digitsVal "00".data = 0 from by decide,
        show digitsVal "01".data = 1 from by decide,
        show digitsVal "500".data = 500 from by decide,
        show List.length ("500".data) = 3 from by decide]
    · rw [show ("00:01:30.250".data : Str) =
          "00".data ++ ':' :: ("01".data ++ ':' :: ("30".data ++ '.' :: "250".data)) from rfl,
        parse_timestamp_digit_fields (by decide) (by decide) (by decide)
          (by decide) (by decide) (by decide) (by decide)]
      norm_num [show digitsVal "00".data = 0 from by decide,
        show digitsVal "01".data = 1 from by decide,
        show digitsVal "30".data = 30 from by decide,
        show digitsVal "250".data = 250 from by decide,
        show List.length ("250".data) = 3 from by decide]
    · rw [show ("01:00:00.000".data : Str) =
          "01".data ++ ':' :: ("00".data ++ ':' :: ("00".data ++ '.' :: "000".data)) from rfl,
        parse_timestamp_digit_fields (by decide) (by decide) (by decide)
          (by decide) (by decide) (by decide) (by decide)]
      norm_num [show digitsVal "00".data = 0 from by decide,
        show digitsVal "01".data = 1 from by decide,
        show digitsVal "000".data = 0 from by decide]
    · rw [show ("00:00:00.5".data : Str) =
          "00".data ++ ':' :: ("00".data ++ ':' :: ("00".data ++ '.' :: "5".data)) from rfl,
        parse_timestamp_digit_fields (by decide) (by decide) (by decide)
          (by decide) (by decide) (by decide) (by decide)]
      norm_num [show digitsVal "00".data = 0 from by decide,
        show digitsVal "5".data = 5 from by decide,
        show List.length ("5".data) = 1 from by decide]
  · intro a b c f hane had hbne hbd hcne hcd hf
    exact parse_timestamp_digit_fields hane had hbne hbd hcne hcd hf

/-- Witness for C2: the general clause instantiated at `1:2:3.25`. -/
theorem C2_timestamp_values_witness :
    ("1".data ≠ [] ∧ ("1".data : Str).all Char.isDigit = true ∧
     "2".data ≠ [] ∧ ("2".data : Str).all Char.isDigit = true ∧
     "3".data ≠ [] ∧ ("3".data : Str).all Char.isDigit = true ∧
     ("25".data : Str).all Char.isDigit = true) ∧
    parse_timestamp ("1".data ++ ':' :: ("2".data ++ ':' :: ("3".data ++ '.' :: "25".data))) =
      (digitsVal "1".data : ℚ) * 3600 + (digitsVal "2".data : ℚ) * 60 +
        (digitsVal "3".data : ℚ) +
        (digitsVal "25".data : ℚ) / 10 ^ ("25".data : Str).length :=
  ⟨by decide,
    C2_timestamp_values.2 "1".data "2".data "3".data "25".data
      (by decide) (by decide) (by decide) (by decide) (by decide) (by decide)
      (by decide)⟩

/-- Counterexample to C3: the timestamp parsers are not non-negative.  The
Python `int` conversion accepts signed components, so `00:00:-5` parses
successfully to the negative value -5.0 in both parsers. -/
theorem C3_counterexample_negative_value :
    parse_timestamp "00:00:-5".data < 0 ∧ parse_srt_timestamp "00:00:-5".data < 0 := by
  constructor
  · rw [show ("00:00:-5".data : Str) =
        "00".data ++ ':' :: ("00".data ++ ':' :: "-5".data) from rfl,
      parse_timestamp_hms (by decide) (by decide) (by decide)
        (show pyInt "00".data = some 0 from by decide)
        (show pyInt "00".data = some 0 from by decide)
        (show pyInt "-5".data = some (-5) from by decide)]
    norm_num
  · rw [show ("00:00:-5".data : Str) =
        "00".data ++ ':' :: ("00".data ++ ':' :: "-5".data) from rfl,
      parse_srt_timestamp_hms (by decide) (by decide) (by decide)
        (show pyInt "00".data = some 0 from by decide)
        (show pyInt "00".data = some 0 from by decide)
        (show pyInt "-5".data = some (-5) from by decide)]
    norm_num

/-- C3 (amended): both timestamp parsers are total functions of their input
(every exception of the source is caught), and on every input on which
parsing fails they return exactly 0.0; however, a successfully parsed
input with a negative signed component can yield a negative value. -/
theorem C3_amended_failure_yields_zero (s : Str) :
    (vttParseFails s = true → parse_timestamp s = 0) ∧
    (srtParseFails s = true → parse_srt_timestamp s = 0) := by
  constructor
  · intro h
    simp only [vttParseFails] at h
    simp only [parse_timestamp]
    split
    · rfl
    · rename_i ms heq
      rw [heq] at h
      split
      · rename_i a b c heq2
        rw [heq2] at h
        cases ha : pyInt a <;> cases hb : pyInt b <;> cases hc : pyInt c <;>
          simp [ha, hb, hc] at h ⊢
      · rename_i b c heq2
        rw [heq2] at h
        cases hb : pyInt b <;> cases hc : pyInt c <;>
          simp [hb, hc] at h ⊢
      · rfl
  · intro h
    simp only [srtParseFails] at h
    simp only [parse_srt_timestamp]
    split
    · rfl
    · rename_i ms heq
      rw [heq] at h
      split
      · rename_i a b c heq2
        rw [heq2] at h
        cases ha : pyInt a <;> cases hb : pyInt b <;> cases hc : pyInt c <;>
          simp [ha, hb, hc] at h ⊢
      · rfl

/-- Witness for C3 (amended): the malformed input `abc` fails in both
parsers and both return 0.0. -/
theorem C3_amended_witness :
    (vttParseFails "abc".data = true ∧ srtParseFails "abc".data = true) ∧
    parse_timestamp "abc".data = 0 ∧ parse_srt_timestamp "abc".data = 0 :=
  ⟨by decide,
    (C3_amended_failure_yields_zero "abc".data).1 (by decide),
    (C3_amended_failure_yields_zero "abc".data).2 (by decide)⟩

/-- Counterexample to C4: a cue or block whose timestamp line splits around
the arrow but has unparseable timestamp strings is not dropped.  Both
parsers emit a segment with start 0.0 and duration 0.0 for the timestamp
line `aa --> bb`, instead of emitting nothing. -/
theorem C4_counterexample_unparseable_not_dropped :
    parse_vtt_content "aa --> bb\nhello".data = [⟨"hello".data, 0, 0⟩] ∧
    parse_srt_content "1\naa --> bb\nhello".data = [⟨"hello".data, 0, 0⟩] := by
  have hts : parse_timestamp "aa".data = 0 := rfl
  have hts2 : parse_timestamp "bb".data = 0 := rfl
  have hs1 : parse_srt_timestamp "aa".data = 0 := rfl
  have hs2 : parse_srt_timestamp "bb".data = 0 := rfl
  constructor
  · have hmain : parse_vtt_content "aa --> bb\nhello".data =
        [⟨"hello".data, parse_timestamp "aa".data,
          parse_timestamp "bb".data - parse_timestamp "aa".data⟩] := rfl
    rw [hmain, hts, hts2]
    norm_num
  · have hmain : parse_srt_content "1\naa --> bb\nhello".data =
        [⟨"hello".data, parse_srt_timestamp "aa".data,
          parse_srt_timestamp "bb".data - parse_srt_timestamp "aa".data⟩] := rfl
    rw [hmain, hs1, hs2]
    norm_num

/-- C4 (amended): the units that are dropped are exactly those whose
timestamp line fails to split into two parts around the arrow.  A VTT line
containing the arrow whose split is not exactly two parts emits no segment,
and, together with following text lines that contain no arrow, leaves the
parse of the remaining lines unchanged; an SRT block with fewer than three
lines or whose second line does not split into two parts around the arrow
emits no segment and leaves the other blocks' segments unchanged.  No
input raises. -/
theorem C4_amended_malformed_units :
    (∀ tl : Str, ∀ texts rest : List Str,
      containsSub "-->".data (pyStrip tl) = true →
      (pySplitSep " --> ".data (pyStrip tl)).length ≠ 2 →
      (∀ t ∈ texts, containsSub "-->".data (pyStrip t) = false) →
      parseVttLines (tl :: (texts ++ rest)) = parseVttLines rest) ∧
    (∀ b : Str, ∀ bs1 bs2 : List Str, srtBlockMalformed b →
      (bs1 ++ b :: bs2).flatMap parseSrtBlock =
        (bs1 ++ bs2).flatMap parseSrtBlock) := by
  constructor
  · intro tl texts rest harrow hsplit htexts
    rw [parseVttLines_cons_skip hsplit]
    clear harrow hsplit
    induction texts with
    | nil => rfl
    | cons t ts ih =>
      have hf : containsSub "-->".data (pyStrip t) = false := htexts t (by simp)
      have hs : (pySplitSep " --> ".data (pyStrip t)).length ≠ 2 := by
        rw [arrow_no_split hf]
        simp
      show parseVttLines (t :: (ts ++ rest)) = parseVttLines rest
      rw [parseVttLines_cons_skip hs]
      exact ih (fun t2 hm => htexts t2 (by simp [hm]))
  · intro b bs1 bs2 hmal
    have hb : parseSrtBlock b = [] := by
      unfold srtBlockMalformed at hmal
      unfold parseSrtBlock
      cases hsp : pySplitSep "\n".data (pyStrip b) with
      | nil => rfl
      | cons l1 rest1 =>
        cases rest1 with
        | nil => rfl
        | cons ts rest2 =>
          cases rest2 with
          | nil => rfl
          | cons t1 tr =>
            rw [hsp] at hmal
            have hmal2 : (pySplitSep " --> ".data ts).length ≠ 2 := hmal
            by_cases hc : containsSub "-->".data ts = true
            · simp only [hc, if_true]
              cases hsp2 : pySplitSep " --> ".data ts with
              | nil => rfl
              | cons p1 r1 =>
                cases r1 with
                | nil => rfl
                | cons p2 r2 =>
                  cases r2 with
                  | nil => rw [hsp2] at hmal2; simp at hmal2
                  | cons p3 ps => rfl
            · simp [hc]
    simp [hb]

/-- Witness for C4 (amended): a VTT cue whose timestamp line is `a-->b`
with one arrow-free text line is dropped, and a single-line SRT block is
dropped. -/
theorem C4_amended_witness :
    (containsSub "-->".data (pyStrip "a-->b".data) = true ∧
     (pySplitSep " --> ".data (pyStrip "a-->b".data)).length ≠ 2 ∧
     (∀ t ∈ ["x".data], containsSub "-->".data (pyStrip t) = false) ∧
     srtBlockMalformed "bad".data) ∧
    parseVttLines ["a-->b".data, "x".data] = parseVttLines [] ∧
    ([] ++ "bad".data :: []).flatMap parseSrtBlock =
      ([] ++ ([] : List Str)).flatMap parseSrtBlock :=
  ⟨⟨by decide, by decide, by decide, by decide⟩,
    C4_amended_malformed_units.1 "a-->b".data ["x".data] []
      (by decide) (by decide) (by decide),
    C4_amended_malformed_units.2 "bad".data [] [] (by decide)⟩

/-- C5: for every identifier string, embedding it in the four URL shapes
`watch?v=<id>`, `youtu.be/<id>`, `/shorts/<id>`, and `/embed/<id>` and
applying `extract_video_id` of `YouTubeTranscriptExtractor` yields the same
result for all four shapes. -/
theorem C5_url_shapes_agree (vid : Str) :
    extract_video_id ("watch?v=".data ++ vid) =
      extract_video_id ("youtu.be/".data ++ vid) ∧
    extract_video_id ("youtu.be/".data ++ vid) =
      extract_video_id ("/shorts/".data ++ vid) ∧
    extract_video_id ("/shorts/".data ++ vid) =
      extract_video_id ("/embed/".data ++ vid) := by
  rcases h : takeClass 11 vid with _ | g
  · rw [extract_watch_none h, extract_youtube_none h, extract_shorts_none h,
      extract_embed_none h]
    exact ⟨rfl, rfl, rfl⟩
  · rw [extract_watch_some h, extract_youtube_some h, extract_shorts_some h,
      extract_embed_some h]
    exact ⟨rfl, rfl, rfl⟩

/-- C10: `extract_video_id` of `YouTubeTranscriptExtractor` returns either
`none` or a string of exactly 11 characters drawn from `[0-9A-Za-z_-]`. -/
theorem C10_id_shape (url : Str) :
    extract_video_id url = none ∨
    ∃ g, extract_video_id url = some g ∧ g.length = 11 ∧ g.all isIdChar = true := by
  unfold extract_video_id
  rcases h1 : searchP1 url with _ | g
  · rcases h2 : searchLit "embed/".data url with _ | g
    · rcases h3 : searchLit "watch?v=".data url with _ | g
      · left
        rfl
      · right
        exact ⟨g, rfl, (searchLit_spec h3).1, (searchLit_spec h3).2⟩
    · right
      exact ⟨g, rfl, (searchLit_spec h2).1, (searchLit_spec h2).2⟩
  · right
    exact ⟨g, rfl, (searchP1_spec h1).1, (searchP1_spec h1).2⟩

/-- C6: the two timestamp parsers are asymmetric in accepted field counts:
on a two-field digit input `M:S`, `_parse_timestamp` returns `M*60 + S`
while `_parse_srt_timestamp` fails and returns 0.0; on a three-field digit
input `H:M:S` both return `H*3600 + M*60 + S`. -/
theorem C6_field_count_asymmetry :
    (∀ b c : Str, b ≠ [] → b.all Char.isDigit = true → c ≠ [] →
      c.all Char.isDigit = true →
      parse_timestamp (b ++ ':' :: c) =
        (digitsVal b : ℚ) * 60 + (digitsVal c : ℚ) ∧
      parse_srt_timestamp (b ++ ':' :: c) = 0) ∧
    (∀ a b c : Str, a ≠ [] → a.all Char.isDigit = true → b ≠ [] →
      b.all Char.isDigit = true → c ≠ [] → c.all Char.isDigit = true →
      parse_timestamp (a ++ ':' :: (b ++ ':' :: c)) =
        (digitsVal a : ℚ) * 3600 + (digitsVal b : ℚ) * 60 + (digitsVal c : ℚ) ∧
      parse_srt_timestamp (a ++ ':' :: (b ++ ':' :: c)) =
        (digitsVal a : ℚ) * 3600 + (digitsVal b : ℚ) * 60 + (digitsVal c : ℚ)) := by
  constructor
  · intro b c hbne hbd hcne hcd
    constructor
    · rw [parse_timestamp_ms (cleanField_of_digits hbd) (cleanField_of_digits hcd)
        (pyInt_digits hbne hbd) (pyInt_digits hcne hcd)]
      push_cast
      ring
    · exact parse_srt_timestamp_two_fields (cleanField_of_digits hbd)
        (cleanField_of_digits hcd)
  · intro a b c hane had hbne hbd hcne hcd
    constructor
    · rw [parse_timestamp_hms (cleanField_of_digits had) (cleanField_of_digits hbd)
        (cleanField_of_digits hcd) (pyInt_digits hane had) (pyInt_digits hbne hbd)
        (pyInt_digits hcne hcd)]
      push_cast
      ring
    · rw [parse_srt_timestamp_hms (cleanField_of_digits had) (cleanField_of_digits hbd)
        (cleanField_of_digits hcd) (pyInt_digits hane had) (pyInt_digits hbne hbd)
        (pyInt_digits hcne hcd)]
      push_cast
      ring

/-- Witness for C6: the two-field input `1:30` evaluates to 90 seconds in
the VTT parser and 0 in the SRT parser. -/
theorem C6_field_count_asymmetry_witness :
    ("1".data ≠ [] ∧ ("1".data : Str).all Char.isDigit = true ∧
     "30".data ≠ [] ∧ ("30".data : Str).all Char.isDigit = true) ∧
    parse_timestamp ("1".data ++ ':' :: "30".data) =
      (digitsVal "1".data : ℚ) * 60 + (digitsVal "30".data : ℚ) ∧
    parse_srt_timestamp ("1".data ++ ':' :: "30".data) = 0 :=
  ⟨by decide,
    C6_field_count_asymmetry.1 "1".data "30".data
      (by decide) (by decide) (by decide) (by decide)⟩

/-- C7: when the primary source is available and returns a non-empty
transcript and the URL resolves to a non-empty identifier, the orchestrator
returns exactly the primary result with the primary success status (with
the proxy flag) and its call trace is `[api]` alone, so the secondary
source is never invoked. -/
theorem C7_primary_success_short_circuits
    (env : ExtractEnv) (url : Str) (p : Bool)
    (hapi : env.transcriptApiAvailable = true)
    (htr : truthyTranscript env.apiResult = true)
    (hvid : ∃ vid, extract_video_id url = some vid ∧ vid ≠ []) :
    extract_transcript env url p =
      (env.apiResult, successApiMsg p, [SourceCall.api]) := by
  rcases hvid with ⟨vid, hv, hne⟩
  simp only [extract_transcript]
  rw [hv]
  have hemp : vid.isEmpty = false := by
    cases vid
    · exact absurd rfl hne
    · rfl
  simp [hemp, hapi, htr]

/-- Witness for C7: a primary success on a concrete environment returns
the primary segments, the primary status, and a trace without the
secondary source. -/
theorem C7_primary_success_witness :
    ((⟨true, true, some [⟨"hi".data, 0, 1⟩], none⟩ : ExtractEnv).transcriptApiAvailable = true ∧
     truthyTranscript (⟨true, true, some [⟨"hi".data, 0, 1⟩], none⟩ : ExtractEnv).apiResult = true ∧
     (∃ vid, extract_video_id "watch?v=abcdefghijk".data = some vid ∧ vid ≠ [])) ∧
    extract_transcript ⟨true, true, some [⟨"hi".data, 0, 1⟩], none⟩
        "watch?v=abcdefghijk".data false =
      (some [⟨"hi".data, 0, 1⟩], successApiMsg false, [SourceCall.api]) :=
  ⟨⟨rfl, rfl, ⟨"abcdefghijk".data, by decide, by decide⟩⟩,
    C7_primary_success_short_circuits _ _ false rfl rfl
      ⟨"abcdefghijk".data, by decide, by decide⟩⟩

/-- C8: the orchestrator never pairs an empty segment sequence with a
success status: a success message implies a non-empty returned sequence,
and an absent or empty sequence is always paired with one of the two
failure messages. -/
theorem C8_no_empty_success (env : ExtractEnv) (url : Str) (p : Bool) :
    (((extract_transcript env url p).2.1 = successApiMsg p ∨
      (extract_transcript env url p).2.1 = successYtdlpMsg p) →
      ∃ l, (extract_transcript env url p).1 = some l ∧ l ≠ []) ∧
    (((extract_transcript env url p).1 = none ∨
      (extract_transcript env url p).1 = some []) →
      ((extract_transcript env url p).2.1 = "Invalid YouTube URL".data ∨
       (extract_transcript env url p).2.1 =
         "Both transcript extraction methods failed".data)) := by
  have hmsg1 : ∀ q : Bool, "Invalid YouTube URL".data ≠ successApiMsg q := by
    intro q
    cases q <;> decide
  have hmsg2 : ∀ q : Bool, "Invalid YouTube URL".data ≠ successYtdlpMsg q := by
    intro q
    cases q <;> decide
  have hmsg3 : ∀ q : Bool,
      "Both transcript extraction methods failed".data ≠ successApiMsg q := by
    intro q
    cases q <;> decide
  have hmsg4 : ∀ q : Bool,
      "Both transcript extraction methods failed".data ≠ successYtdlpMsg q := by
    intro q
    cases q <;> decide
  simp only [extract_transcript]
  split
  · constructor
    · intro hmsg
      rcases hmsg with h | h
      · exact absurd h (hmsg1 p)
      · exact absurd h (hmsg2 p)
    · intro _
      left
      rfl
  · split
    · constructor
      · intro hmsg
        rcases hmsg with h | h
        · exact absurd h (hmsg1 p)
        · exact absurd h (hmsg2 p)
      · intro _
        left
        rfl
    · split
      · rename_i hapi
        rcases henv : env.apiResult with _ | l
        · rw [henv] at hapi
          simp [truthyTranscript] at hapi
        · cases l with
          | nil =>
            rw [henv] at hapi
            simp [truthyTranscript] at hapi
          | cons x xs =>
            constructor
            · intro _
              exact ⟨x :: xs, rfl, by simp⟩
            · intro hbad
              rcases hbad with h | h <;> simp at h
      · split
        · rename_i hyt
          rcases henv : env.ytdlpResult with _ | l
          · rw [henv] at hyt
            simp [truthyTranscript] at hyt
          · cases l with
            | nil =>
              rw [henv] at hyt
              simp [truthyTranscript] at hyt
            | cons x xs =>
              constructor
              · intro _
                exact ⟨x :: xs, rfl, by simp⟩
              · intro hbad
                rcases hbad with h | h <;> simp at h
        · constructor
          · intro hmsg
            rcases hmsg with h | h
            · exact absurd h (hmsg3 p)
            · exact absurd h (hmsg4 p)
          · intro _
            right
            rfl

/-- Witness for C8: with a primary success, the success status is indeed
paired with a non-empty sequence. -/
theorem C8_no_empty_success_witness :
    (extract_transcript ⟨true, false, some [⟨"hey".data, 0, 2⟩], none⟩
        "youtu.be/abcdefghijk".data false).2.1 = successApiMsg false ∧
    ∃ l, (extract_transcript ⟨true, false, some [⟨"hey".data, 0, 2⟩], none⟩
        "youtu.be/abcdefghijk".data false).1 = some l ∧ l ≠ [] :=
  ⟨rfl,
    (C8_no_empty_success ⟨true, false, some [⟨"hey".data, 0, 2⟩], none⟩
        "youtu.be/abcdefghijk".data false).1 (Or.inl rfl)⟩

/-- C9: when the URL resolves to a non-empty identifier but the primary
source is unavailable or falsy and the secondary source is unavailable or
falsy, the orchestrator returns the absence value paired with exactly the
message `Both transcript extraction methods failed`; the embedding is a
total function, so no exception escapes. -/
theorem C9_both_sources_fail
    (env : ExtractEnv) (url : Str) (p : Bool)
    (hvid : ∃ vid, extract_video_id url = some vid ∧ vid ≠ [])
    (hapi : env.transcriptApiAvailable = false ∨
      truthyTranscript env.apiResult = false)
    (hyt : env.ytDlpAvailable = false ∨
      truthyTranscript env.ytdlpResult = false) :
    (extract_transcript env url p).1 = none ∧
    (extract_transcript env url p).2.1 =
      "Both transcript extraction methods failed".data := by
  rcases hvid with ⟨vid, hv, hne⟩
  have hc1 : ¬(env.transcriptApiAvailable = true ∧
      truthyTranscript env.apiResult = true) := by
    intro hh
    rcases hapi with h | h
    · rw [hh.1] at h
      simp at h
    · rw [hh.2] at h
      simp at h
  have hc2 : ¬(env.ytDlpAvailable = true ∧
      truthyTranscript env.ytdlpResult = true) := by
    intro hh
    rcases hyt with h | h
    · rw [hh.1] at h
      simp at h
    · rw [hh.2] at h
      simp at h
  simp only [extract_transcript]
  split
  · rename_i heq
    rw [hv] at heq
    simp at heq
  · rename_i vid2 heq
    rw [hv] at heq
    injection heq with h2
    subst h2
    have hemp : List.isEmpty vid = false := by
      cases vid with
      | nil => exact absurd rfl hne
      | cons y ys => rfl
    rw [if_neg (show ¬List.isEmpty vid = true by simp [hemp]), if_neg hc1,
      if_neg hc2]
    exact ⟨rfl, rfl⟩

/-- Witness for C9: with both libraries unavailable, a resolving URL gets
the fixed failure message and no segments. -/
theorem C9_both_sources_fail_witness :
    ((∃ vid, extract_video_id "/shorts/abcdefghijk".data = some vid ∧ vid ≠ []) ∧
     ((⟨false, false, none, none⟩ : ExtractEnv).transcriptApiAvailable = false ∨
       truthyTranscript (⟨false, false, none, none⟩ : ExtractEnv).apiResult = false) ∧
     ((⟨false, false, none, none⟩ : ExtractEnv).ytDlpAvailable = false ∨
       truthyTranscript (⟨false, false, none, none⟩ : ExtractEnv).ytdlpResult = false)) ∧
    (extract_transcript ⟨false, false, none, none⟩
        "/shorts/abcdefghijk".data true).1 = none ∧
    (extract_transcript ⟨false, false, none, none⟩
        "/shorts/abcdefghijk".data true).2.1 =
      "Both transcript extraction methods failed".data :=
  ⟨⟨⟨"abcdefghijk".data, by decide, by decide⟩, Or.inl rfl, Or.inl rfl⟩,
    C9_both_sources_fail ⟨false, false, none, none⟩ "/shorts/abcdefghijk".data true
      ⟨"abcdefghijk".data, by decide, by decide⟩ (Or.inl rfl) (Or.inl rfl)⟩
